import Mathlib

/-!
Shallow embedding of the boot-orchestration core of the Ishiiruka emulator
(Source/Core/Core/Boot/Boot.cpp): the CBoot functions Load_FST, FindMapFile,
Load_BS2 (the firmware loader) and BootUp, together with theorems checking the
natural-language specification against them.

External collaborators (the descrambler, zlib's crc32, file reads, the disc
volume, the DOL/ELF/WAD loaders, the symbol database) are modelled as
parameters or oracle records; the logic of Boot.cpp itself is translated
directly.
-/

namespace Ishiiruka

/-! Machine-integer helpers.  C++ u32 arithmetic is modelled on Nat with
explicit reduction modulo 2^32. -/

def U32LIMIT : Nat := 4294967296

/-- Reduce a natural number to its 32-bit value. -/
def u32 (n : Nat) : Nat := n % U32LIMIT

/-- Common::AlignDown from Common/Align.h: value - (value % size). -/
def alignDown (value size : Nat) : Nat := value - value % size

/-- 32-bit unsigned subtraction a - b with wrap-around, for operands already
reduced mod 2^32 (the minuend used in Boot.cpp is the literal 0x817FFFFF). -/
def u32sub (a b : Nat) : Nat := (u32 a + U32LIMIT - u32 b) % U32LIMIT

/-- 32-bit unsigned left shift, dropping bits shifted past bit 31. -/
def u32shl (a s : Nat) : Nat := u32 (a * 2 ^ s)

/-! DiscIO::Region (DiscIO/Enums.h), restricted to the values Boot.cpp uses. -/

inductive Region
  | NTSC_J
  | NTSC_U
  | PAL
  | UNKNOWN_REGION
deriving DecidableEq, Repr

/-- DiscIO::IsNTSC as used by BootUp for the video preset. -/
def isNTSC (r : Region) : Bool := r = Region.NTSC_J || r = Region.NTSC_U

/-! Load_FST arena computation (Boot.cpp lines 63-81).  The scaled max-FST
size is (max_fst_size << shift) on u32, shift = 2 on Wii and 0 on GameCube;
the arena boundary is AlignDown(0x817FFFFF - scaled, 0x20) on u32. -/

def ARENA_CEILING : Nat := 0x817FFFFF

/-- Shift applied to FST header fields: 2 in Wii (secondary-console) mode. -/
def fstShift (is_wii : Bool) : Nat := if is_wii then 2 else 0

/-- The arena boundary computed by CBoot::Load_FST:
Common::AlignDown(0x817FFFFF - (max_fst_size << shift), 0x20), all on u32. -/
def arenaHigh (max_fst_size : Nat) (is_wii : Bool) : Nat :=
  alignDown (u32sub ARENA_CEILING (u32shl max_fst_size (fstShift is_wii))) 0x20

theorem alignDown_mod (v s : Nat) : alignDown v s % s = 0 := by
  unfold alignDown
  have h := Nat.div_add_mod v s
  have hvs : v - v % s = s * (v / s) := by omega
  rw [hvs, Nat.mul_mod_right]

theorem alignDown_le (v s : Nat) : alignDown v s ≤ v := by
  unfold alignDown; omega

/-! IPL (firmware) checksum table of CBoot::Load_BS2 (Boot.cpp lines 171-219):
nine known CRC32 values of ipl.bin, classified to a DiscIO::Region. -/

def USA_v1_0 : Nat := 0x6D740AE7
def USA_v1_1 : Nat := 0xD5E6FEEA
def USA_v1_2 : Nat := 0x86573808
def BRA_v1_0 : Nat := 0x667D0B64
def JAP_v1_0 : Nat := 0x6DAC1F2A
def JAP_v1_1 : Nat := 0xD235E3F9
def PAL_v1_0 : Nat := 0x4F319F43
def PAL_v1_1 : Nat := 0xDD8CAB7C
def PAL_v1_2 : Nat := 0xAD1B7F16

/-- The list of the nine known IPL checksums. -/
def knownIplHashes : List Nat :=
  [USA_v1_0, USA_v1_1, USA_v1_2, BRA_v1_0, JAP_v1_0, JAP_v1_1,
   PAL_v1_0, PAL_v1_1, PAL_v1_2]

/-- The switch on ipl_hash in Load_BS2: classify a CRC32 value to a region,
defaulting to UNKNOWN_REGION. -/
def iplRegionOfHash (h : Nat) : Region :=
  if h = USA_v1_0 ∨ h = USA_v1_1 ∨ h = USA_v1_2 ∨ h = BRA_v1_0 then
    Region.NTSC_U
  else if h = JAP_v1_0 ∨ h = JAP_v1_1 then
    Region.NTSC_J
  else if h = PAL_v1_0 ∨ h = PAL_v1_1 ∨ h = PAL_v1_2 then
    Region.PAL
  else
    Region.UNKNOWN_REGION

/-! Machine state touched by the boot code: guest memory as a byte map,
and the CPU registers PowerPC::ppcState exposes (gpr array, spr array, msr,
pc).  SPR indices are the PowerPC special-purpose register numbers used in
Core/PowerPC/PowerPC.h. -/

def SPR_HID0 : Nat := 1008
def SPR_IBAT0U : Nat := 528
def SPR_IBAT0L : Nat := 529
def SPR_IBAT3U : Nat := 534
def SPR_IBAT3L : Nat := 535
def SPR_DBAT0U : Nat := 536
def SPR_DBAT0L : Nat := 537
def SPR_DBAT1U : Nat := 538
def SPR_DBAT1L : Nat := 539
def SPR_DBAT3U : Nat := 542
def SPR_DBAT3L : Nat := 543

structure CpuState where
  gpr : Nat → Nat
  spr : Nat → Nat
  msr : Nat
  pc : Nat

structure MachineState where
  mem : Nat → Nat
  cpu : CpuState

/-- Memory::CopyToEmu(address, src + srcOff, len): copy len bytes of the
host buffer src, starting at srcOff, to guest addresses [address, address+len). -/
def copyToEmu (mem : Nat → Nat) (address : Nat) (src : Nat → Nat)
    (srcOff len : Nat) : Nat → Nat :=
  fun a => if address ≤ a ∧ a < address + len then src (srcOff + (a - address)) else mem a

/-! CBoot::Load_BS2 (the firmware loader).  The file read, the CRC32
implementation and the EXI IPL descrambler are external collaborators:
the read result is an Option (byte map and size), crc is an oracle from the
file to its 32-bit hash, and scr gives the descrambler's output byte at each
position of the descrambled range (it may depend on the whole buffer). -/

def DESCRAMBLE_START : Nat := 0x100
def DESCRAMBLE_LEN : Nat := 0x1AFE00

/-- The buffer after ExpansionInterface::CEXIIPL::Descrambler((u8*)data + 0x100,
0x1AFE00): bytes inside [0x100, 0x100 + 0x1AFE00) are replaced by the opaque
transform's output, all other bytes keep their raw file value. -/
def descrambledBuf (scr : (Nat → Nat) → Nat → Nat) (data : Nat → Nat) :
    Nat → Nat :=
  fun i =>
    if DESCRAMBLE_START ≤ i ∧ i < DESCRAMBLE_START + DESCRAMBLE_LEN then
      scr data i
    else
      data i

/-- Non-fatal diagnostics Load_BS2 can emit (PanicAlertT calls). -/
inductive BWarn
  | unknownHash (h : Nat)
  | regionMismatch (ipl cfg : Region)
deriving DecidableEq, Repr

structure BS2Result where
  ok : Bool
  region : Option Region
  st : MachineState
  warnings : List BWarn

/-- CBoot::Load_BS2(boot_rom_filename), Boot.cpp lines 167-255.  file is the
result of File::ReadFileToString (none when the read fails); cfgRegion is
SConfig::GetInstance().m_region.  On a failed read it returns false having
touched nothing.  Otherwise it classifies the CRC32 hash, warns on an unknown
hash or a region mismatch, descrambles [0x100, 0x100+0x1AFE00), copies
[0x100, 0x100+0x700) to guest 0x01200000 and [0x820, 0x820+0x1AFE00) to guest
0x01300000, hand-sets gpr 3/4/5, msr, HID0, five BAT pairs and the program
counter to fixed literals, and returns true. -/
def Load_BS2 (scr : (Nat → Nat) → Nat → Nat) (crc : (Nat → Nat) → Nat → Nat)
    (cfgRegion : Region) (file : Option ((Nat → Nat) × Nat))
    (st0 : MachineState) : BS2Result :=
  match file with
  | none => ⟨false, none, st0, []⟩
  | some (data, size) =>
    let iplHash := crc data size
    let iplRegion := iplRegionOfHash iplHash
    let w1 : List BWarn :=
      if iplRegion = Region.UNKNOWN_REGION then [BWarn.unknownHash iplHash] else []
    let w2 : List BWarn :=
      if iplRegion ≠ Region.UNKNOWN_REGION ∧ cfgRegion ≠ iplRegion then
        [BWarn.regionMismatch iplRegion cfgRegion]
      else []
    let d := descrambledBuf scr data
    let mem1 := copyToEmu st0.mem 0x01200000 d 0x100 0x700
    let mem2 := copyToEmu mem1 0x01300000 d 0x820 DESCRAMBLE_LEN
    let gpr1 := Function.update
      (Function.update (Function.update st0.cpu.gpr 3 0xfff0001f) 4 0x00002030)
      5 0x0000009c
    let spr1 := Function.update st0.cpu.spr SPR_HID0 0x0011c464
    let spr2 := Function.update (Function.update spr1 SPR_IBAT0U 0x80001fff)
      SPR_IBAT0L 0x00000002
    let spr3 := Function.update (Function.update spr2 SPR_IBAT3U 0xfff0001f)
      SPR_IBAT3L 0xfff00001
    let spr4 := Function.update (Function.update spr3 SPR_DBAT0U 0x80001fff)
      SPR_DBAT0L 0x00000002
    let spr5 := Function.update (Function.update spr4 SPR_DBAT1U 0xc0001fff)
      SPR_DBAT1L 0x0000002a
    let spr6 := Function.update (Function.update spr5 SPR_DBAT3U 0xfff0001f)
      SPR_DBAT3L 0xfff00001
    ⟨true, some iplRegion,
      { mem := mem2,
        cpu := { gpr := gpr1, spr := spr6, msr := 0x00002030, pc := 0x81200150 } },
      w1 ++ w2⟩

/-! CBoot::Load_FST (Boot.cpp lines 50-82).  The DVD interface and volume are
external collaborators, modelled as an oracle record; guest memory is threaded
as a byte map, and every disc read and 32-bit memory write is recorded in an
effect trace. -/

structure DiscEnv where
  discInside : Bool
  disc : Nat → Nat
  readOk : Nat → Nat → Bool
  vol32 : Nat → Nat

inductive FstEffect
  | dvdRead (dvd_offset output_address length : Nat) (decrypt : Bool)
  | write32 (address value : Nat)
deriving DecidableEq, Repr

/-- Memory::Write_U32: store a 32-bit value big-endian at a byte address. -/
def write_U32 (mem : Nat → Nat) (value address : Nat) : Nat → Nat :=
  fun a =>
    if a = address then value / 2 ^ 24 % 256
    else if a = address + 1 then value / 2 ^ 16 % 256
    else if a = address + 2 then value / 2 ^ 8 % 256
    else if a = address + 3 then value % 256
    else mem a

/-- Memory::Read_U32: load a big-endian 32-bit value from a byte address. -/
def read_U32 (mem : Nat → Nat) (address : Nat) : Nat :=
  mem address * 2 ^ 24 + mem (address + 1) * 2 ^ 16 +
    mem (address + 2) * 2 ^ 8 + mem (address + 3)

/-- CBoot::DVDRead(dvd_offset, output_address, length, decrypt): read length
bytes from the volume; on success copy them into guest memory, on failure
leave memory untouched.  The attempted read is recorded either way. -/
def dvdReadM (env : DiscEnv) (mem : Nat → Nat)
    (dvd_offset output_address length : Nat) (decrypt : Bool) :
    (Nat → Nat) × List FstEffect :=
  if env.readOk dvd_offset length then
    (copyToEmu mem output_address env.disc dvd_offset length,
     [FstEffect.dvdRead dvd_offset output_address length decrypt])
  else
    (mem, [FstEffect.dvdRead dvd_offset output_address length decrypt])

/-- CBoot::Load_FST(is_wii): no-op when no disc is inside; otherwise copy the
32-byte disc header to address 0, duplicate the game id word to 0x3180, read
the three FST header fields, compute the arena boundary and install the FST
and the low-memory pointer triad (0x34, 0x38, 0x3c). -/
def Load_FST (env : DiscEnv) (is_wii : Bool) (mem0 : Nat → Nat) :
    (Nat → Nat) × List FstEffect :=
  if !env.discInside then
    (mem0, [])
  else
    let r1 := dvdReadM env mem0 0 0 0x20 false
    let gameId := read_U32 r1.1 0x0000
    let mem2 := write_U32 r1.1 gameId 0x3180
    let shift := fstShift is_wii
    let fst_offset := u32 (env.vol32 0x0424)
    let fst_size := u32 (env.vol32 0x0428)
    let max_fst_size := u32 (env.vol32 0x042c)
    let arena_high := arenaHigh max_fst_size is_wii
    let mem3 := write_U32 mem2 arena_high 0x00000034
    let r2 := dvdReadM env mem3 (u32shl fst_offset shift) arena_high
      (u32shl fst_size shift) is_wii
    let mem5 := write_U32 r2.1 arena_high 0x00000038
    let mem6 := write_U32 mem5 (u32shl max_fst_size shift) 0x0000003c
    (mem6,
     r1.2 ++ [FstEffect.write32 0x3180 gameId, FstEffect.write32 0x00000034 arena_high]
       ++ r2.2
       ++ [FstEffect.write32 0x00000038 arena_high,
           FstEffect.write32 0x0000003c (u32shl max_fst_size shift)])

/-! CBoot::FindMapFile's title-id derivation (Boot.cpp lines 89-126).
std::string is modelled as List Char; std::string::npos arithmetic (npos + 1
wraps to 0 in size_t) and the size_t subtraction in the substr count are
modelled explicitly. -/

def SIZETLIMIT : Nat := 18446744073709551616

/-- std::string::find_last_of for a single character: index of the last
occurrence, none when absent (npos). -/
def findLastOf : List Char → Char → Option Nat
  | [], _ => none
  | x :: xs, c =>
    match findLastOf xs c with
    | some i => some (i + 1)
    | none => if x = c then some 0 else none

/-- find_last_of(sep) + 1 on size_t: npos + 1 wraps around to 0. -/
def afterIndex : Option Nat → Nat
  | none => 0
  | some i => i + 1

/-- The name_begin_index computation for BOOT_ELF / BOOT_DOL: position after
the last path separator of either convention, 0 when there is none. -/
def nameBeginIndex (s : List Char) : Nat :=
  let a := afterIndex (findLastOf s '/')
  let b := afterIndex (findLastOf s '\\')
  if b > a then b else a

/-- The BOOT_ELF / BOOT_DOL title id: substr(name_begin_index,
size - 4 - name_begin_index), the substr count computed on size_t (wrapping)
and clamped by substr to the remaining length. -/
def dolTitleId (s : List Char) : List Char :=
  let nb := nameBeginIndex s
  let count := (s.length + 2 * SIZETLIMIT - 4 - nb) % SIZETLIMIT
  (s.drop nb).take count

/-- The uppercase hexadecimal digit table of printf %X. -/
def hexDigits : List Char :=
  ['0', '1', '2', '3', '4', '5', '6', '7', '8', '9', 'A', 'B', 'C', 'D', 'E', 'F']

def hexDigit (n : Nat) : Char := hexDigits.getD n '0'

/-- printf %08X of a u32: exactly eight uppercase hexadecimal digits with
leading zeros. -/
def hex8 (n : Nat) : List Char :=
  (List.range 8).map fun k => hexDigit (n / 16 ^ (7 - k) % 16)

/-- The BOOT_WII_NAND title id: StringFromFormat of the upper and lower
32 bits of the 64-bit title id, joined by an underscore. -/
def nandTitleId (tid : Nat) : List Char :=
  hex8 (tid / 2 ^ 32 % U32LIMIT) ++ '_' :: hex8 (tid % U32LIMIT)

/-! CBoot::BootUp (Boot.cpp lines 258-469).  The boot configuration is the
subset of SConfig BootUp reads; the external collaborators' results (file
reads, volume state, container validity, signature-database load, map load)
are an oracle record.  BootUp returns its boolean result plus the ordered
trace of collaborator calls and state-changing steps it performed. -/

inductive BootType
  | ISO
  | DOL
  | ELF
  | WII_NAND
  | BS2
  | DFF
  | UNKNOWN_TYPE
deriving DecidableEq, Repr

structure BootConfig where
  bootType : BootType
  region : Region
  bWii : Bool
  bPAL60 : Bool
  bHLE_BS2 : Bool
  bEnableDebugging : Bool
  dvdRootEmpty : Bool
  defaultISOEmpty : Bool
deriving DecidableEq, Repr

structure BootEnv where
  bs2Ok : Bool
  discInside : Bool
  volumeIsWii : Bool
  emulatedBS2Ok : Bool
  dolValid : Bool
  dolIsWii : Bool
  dolEntry : Nat
  elfOk : Bool
  wadOk : Bool
  sigDbLoaded : Bool
  mapLoadOk : Bool
deriving DecidableEq, Repr

inductive BootEffect
  | clearSymbolDB
  | videoPreset (ntsc : Bool)
  | setVolumeName
  | setConfigWii (wii : Bool)
  | warnWrongConsoleMode
  | runEmulatedBS2 (wii : Bool)
  | runEmulatedBS2GC (skipAppLoader : Bool)
  | attemptLoadBS2
  | loadPatches
  | findFunctions (lo hi : Nat)
  | applySignatureDB
  | patchFunctions
  | setVolumeDirectory
  | cpuSetupForDol
  | setupWiiMemory (titleVersion : Nat)
  | dolLoad
  | setPC (v : Nat)
  | runLoadFST (wii : Bool)
  | runBootELF
  | notifyMapLoaded
  | addAutoBreakpoints
  | runBootWiiWAD
  | alertUnknownBootType
  | patchFixedFunctions
deriving DecidableEq, Repr

/-- CBoot::BootUp.  Returns (result, effect trace).  Boot_WiiWAD's result
(env.wadOk) is deliberately absent from the WII_NAND branch: the source calls
Boot_WiiWAD without inspecting its result. -/
def BootUp (cfg : BootConfig) (env : BootEnv) : Bool × List BootEffect :=
  let e0 := [BootEffect.clearSymbolDB,
             BootEffect.videoPreset (isNTSC cfg.region || (cfg.bWii && cfg.bPAL60))]
  let mapFx : List BootEffect :=
    if env.mapLoadOk then [BootEffect.notifyMapLoaded, BootEffect.patchFunctions]
    else []
  let mountFx : List BootEffect :=
    if !cfg.dvdRootEmpty then [BootEffect.setVolumeDirectory]
    else if !cfg.defaultISOEmpty then [BootEffect.setVolumeName]
    else []
  match cfg.bootType with
  | BootType.ISO =>
    let e1 := e0 ++ [BootEffect.setVolumeName]
    if !env.discInside then
      (false, e1)
    else
      let wii := env.volumeIsWii
      let e2 := e1 ++
        (if env.volumeIsWii != cfg.bWii then [BootEffect.warnWrongConsoleMode] else []) ++
        [BootEffect.setConfigWii wii]
      let e3 := e2 ++
        (if cfg.bHLE_BS2 then [BootEffect.runEmulatedBS2 wii]
         else [BootEffect.attemptLoadBS2] ++
           (if env.bs2Ok then [] else [BootEffect.runEmulatedBS2 wii]))
      let e4 := e3 ++ [BootEffect.loadPatches]
      let e5 := e4 ++
        (if cfg.bHLE_BS2 && !cfg.bEnableDebugging then
           [BootEffect.findFunctions 0x80004000 0x811fffff] ++
             (if env.sigDbLoaded then
                [BootEffect.applySignatureDB, BootEffect.patchFunctions]
              else [])
         else [])
      (true, e5 ++ mapFx ++ [BootEffect.patchFixedFunctions])
  | BootType.DOL =>
    if !env.dolValid then
      (false, e0)
    else
      let e1 := e0 ++
        (if env.dolIsWii != cfg.bWii then [BootEffect.warnWrongConsoleMode] else []) ++
        mountFx ++ [BootEffect.runEmulatedBS2 env.dolIsWii]
      let e2 := e1 ++
        (if env.emulatedBS2Ok then []
         else
           [BootEffect.cpuSetupForDol] ++
             (if env.dolIsWii then [BootEffect.setupWiiMemory 0x000000010000003a] else []) ++
             [BootEffect.dolLoad, BootEffect.setPC env.dolEntry])
      (true, e2 ++ mapFx ++ [BootEffect.patchFixedFunctions])
  | BootType.ELF =>
    let e1 := e0 ++ mountFx ++
      (if cfg.bWii then [BootEffect.setupWiiMemory 0x000000010000003a]
       else [BootEffect.runEmulatedBS2GC true]) ++
      [BootEffect.runLoadFST cfg.bWii, BootEffect.runBootELF]
    if !env.elfOk then
      (false, e1)
    else
      (true, e1 ++ [BootEffect.notifyMapLoaded, BootEffect.addAutoBreakpoints,
                    BootEffect.patchFixedFunctions])
  | BootType.WII_NAND =>
    (true, e0 ++ [BootEffect.runBootWiiWAD, BootEffect.loadPatches] ++ mapFx ++
      mountFx ++ [BootEffect.patchFixedFunctions])
  | BootType.BS2 =>
    let e1 := e0 ++ [BootEffect.attemptLoadBS2]
    if env.bs2Ok then
      (true, e1 ++ mapFx ++ [BootEffect.patchFixedFunctions])
    else
      (false, e1)
  | BootType.DFF =>
    (true, e0 ++ [BootEffect.patchFixedFunctions])
  | BootType.UNKNOWN_TYPE =>
    (false, e0 ++ [BootEffect.alertUnknownBootType])

/-! Theorems checking the specification claims. -/

/-- C3: LoadFirmware (Load_BS2) on an unreadable path returns false and
performs zero memory writes and zero register writes: the returned machine
state is exactly the input state and no warnings are emitted. -/
theorem c3_load_firmware_unreadable_noop
    (scr : (Nat → Nat) → Nat → Nat) (crc : (Nat → Nat) → Nat → Nat)
    (cfgRegion : Region) (st0 : MachineState) :
    Load_BS2 scr crc cfgRegion none st0 = ⟨false, none, st0, []⟩ := rfl

/-- C5: for every valid max-FST-size input (one whose scaled value, left
shifted by 2 in Wii mode and unshifted otherwise, does not exceed the fixed
ceiling on u32), the arena boundary computed by Load_FST is congruent to 0
modulo 32 and at most the ceiling address 0x817FFFFF. -/
theorem c5_arena_aligned_and_bounded (max_fst_size : Nat) (is_wii : Bool)
    (hvalid : u32shl max_fst_size (fstShift is_wii) ≤ ARENA_CEILING) :
    arenaHigh max_fst_size is_wii % 32 = 0 ∧
      arenaHigh max_fst_size is_wii ≤ ARENA_CEILING := by
  cases is_wii <;>
    · unfold arenaHigh alignDown u32sub u32shl u32 ARENA_CEILING U32LIMIT fstShift at *
      simp only [Bool.false_eq_true, if_false, if_true, pow_zero, pow_succ, pow_one] at *
      omega

/-- Witness for C5 at the concrete input max_fst_size = 0x100, Wii mode. -/
theorem c5_witness :
    u32shl 0x100 (fstShift true) ≤ ARENA_CEILING ∧
      (arenaHigh 0x100 true % 32 = 0 ∧ arenaHigh 0x100 true ≤ ARENA_CEILING) :=
  ⟨by decide, c5_arena_aligned_and_bounded 0x100 true (by decide)⟩

/-- C6: Load_FST while no disc is mounted is a no-op: memory is returned
unchanged and the effect trace is empty (zero memory writes, zero disc
reads). -/
theorem c6_load_fst_no_disc_noop (env : DiscEnv) (is_wii : Bool)
    (mem0 : Nat → Nat) (h : env.discInside = false) :
    Load_FST env is_wii mem0 = (mem0, []) := by
  simp [Load_FST, h]

/-- Witness for C6 at a concrete environment with no disc inside. -/
theorem c6_witness :
    Load_FST ⟨false, fun _ => 0, fun _ _ => false, fun _ => 0⟩ true (fun _ => 0) =
      ((fun _ => 0), []) :=
  c6_load_fst_no_disc_noop ⟨false, fun _ => 0, fun _ _ => false, fun _ => 0⟩ true
    (fun _ => 0) rfl

/-- A checksum outside the nine-entry table falls through to the default case
of the switch and classifies to UNKNOWN_REGION. -/
theorem iplRegionOfHash_default (h : Nat) (hh : h ∉ knownIplHashes) :
    iplRegionOfHash h = Region.UNKNOWN_REGION := by
  simp [knownIplHashes, List.mem_cons] at hh
  obtain ⟨h1, h2, h3, h4, h5, h6, h7, h8, h9⟩ := hh
  unfold iplRegionOfHash
  rw [if_neg (by tauto), if_neg (by tauto), if_neg (by tauto)]

/-- C2: Load_BS2's checksum classification is exactly the nine-entry table:
on every successful read it returns true and classifies the CRC32 hash with
iplRegionOfHash, which maps each of the nine documented values to its
documented region and everything else to UNKNOWN_REGION; an unknown checksum
additionally emits the non-fatal unknown-hash warning. -/
theorem c2_firmware_checksum_classification
    (scr : (Nat → Nat) → Nat → Nat) (crc : (Nat → Nat) → Nat → Nat)
    (cfgRegion : Region) (data : Nat → Nat) (size : Nat) (st0 : MachineState) :
    (Load_BS2 scr crc cfgRegion (some (data, size)) st0).ok = true ∧
    (Load_BS2 scr crc cfgRegion (some (data, size)) st0).region =
      some (iplRegionOfHash (crc data size)) ∧
    (iplRegionOfHash USA_v1_0 = Region.NTSC_U ∧
     iplRegionOfHash USA_v1_1 = Region.NTSC_U ∧
     iplRegionOfHash USA_v1_2 = Region.NTSC_U ∧
     iplRegionOfHash BRA_v1_0 = Region.NTSC_U ∧
     iplRegionOfHash JAP_v1_0 = Region.NTSC_J ∧
     iplRegionOfHash JAP_v1_1 = Region.NTSC_J ∧
     iplRegionOfHash PAL_v1_0 = Region.PAL ∧
     iplRegionOfHash PAL_v1_1 = Region.PAL ∧
     iplRegionOfHash PAL_v1_2 = Region.PAL) ∧
    (∀ h, h ∉ knownIplHashes → iplRegionOfHash h = Region.UNKNOWN_REGION) ∧
    (crc data size ∉ knownIplHashes →
      BWarn.unknownHash (crc data size) ∈
        (Load_BS2 scr crc cfgRegion (some (data, size)) st0).warnings) := by
  refine ⟨rfl, rfl, by decide, fun h hh => iplRegionOfHash_default h hh, fun hnot => ?_⟩
  have hu := iplRegionOfHash_default _ hnot
  simp [Load_BS2, hu]

/-- Witness for C2: an arbitrary checksum such as 0x12345678 is outside the
table, classifies to UNKNOWN_REGION and is reported in the warnings. -/
theorem c2_witness :
    iplRegionOfHash 0xDEADBEEF = Region.UNKNOWN_REGION ∧
      BWarn.unknownHash 0x12345678 ∈
        (Load_BS2 (fun _ _ => 0) (fun _ _ => 0x12345678) Region.PAL
          (some (fun _ => 0, 4))
          ⟨fun _ => 0, ⟨fun _ => 0, fun _ => 0, 0, 0⟩⟩).warnings :=
  ⟨(c2_firmware_checksum_classification (fun _ _ => 0) (fun _ _ => 0x12345678)
      Region.PAL (fun _ => 0) 4
      ⟨fun _ => 0, ⟨fun _ => 0, fun _ => 0, 0, 0⟩⟩).2.2.2.1 0xDEADBEEF (by decide),
   (c2_firmware_checksum_classification (fun _ _ => 0) (fun _ _ => 0x12345678)
      Region.PAL (fun _ => 0) 4
      ⟨fun _ => 0, ⟨fun _ => 0, fun _ => 0, 0, 0⟩⟩).2.2.2.2 (by decide)⟩

/-- C4 counterexample: on a concrete successful firmware load starting from
the all-zero register file, the set of general-purpose registers Load_BS2
modifies is exactly of size three (r3, r4, r5), not five as the claim
states. -/
theorem c4_counterexample :
    ((Finset.range 32).filter fun i =>
        (Load_BS2 (fun _ _ => 0) (fun _ _ => 0) Region.NTSC_U
            (some (fun _ => 0, 0))
            ⟨fun _ => 0, ⟨fun _ => 0, fun _ => 0, 0, 0⟩⟩).st.cpu.gpr i ≠ 0).card = 3 ∧
      ((Finset.range 32).filter fun i =>
        (Load_BS2 (fun _ _ => 0) (fun _ _ => 0) Region.NTSC_U
            (some (fun _ => 0, 0))
            ⟨fun _ => 0, ⟨fun _ => 0, fun _ => 0, 0, 0⟩⟩).st.cpu.gpr i ≠ 0).card ≠ 5 := by
  decide

/-- C4 amended: after every successful firmware load the hand-set CPU boot
state consists of three general-purpose registers (r3, r4, r5), the status
register, the HID0 register, five BAT register pairs and the program counter,
all equal to fixed literal values; every other general-purpose register is
untouched, and the resulting machine state is identical regardless of the
checksum classification and configured region. -/
theorem c4_cpu_boot_state_literals
    (scr : (Nat → Nat) → Nat → Nat) (crc : (Nat → Nat) → Nat → Nat)
    (cfgRegion : Region) (data : Nat → Nat) (size : Nat) (st0 : MachineState) :
    (Load_BS2 scr crc cfgRegion (some (data, size)) st0).ok = true ∧
    (Load_BS2 scr crc cfgRegion (some (data, size)) st0).st.cpu.gpr 3 = 0xfff0001f ∧
    (Load_BS2 scr crc cfgRegion (some (data, size)) st0).st.cpu.gpr 4 = 0x00002030 ∧
    (Load_BS2 scr crc cfgRegion (some (data, size)) st0).st.cpu.gpr 5 = 0x0000009c ∧
    (∀ i, i ≠ 3 → i ≠ 4 → i ≠ 5 →
      (Load_BS2 scr crc cfgRegion (some (data, size)) st0).st.cpu.gpr i =
        st0.cpu.gpr i) ∧
    (Load_BS2 scr crc cfgRegion (some (data, size)) st0).st.cpu.msr = 0x00002030 ∧
    (Load_BS2 scr crc cfgRegion (some (data, size)) st0).st.cpu.spr SPR_HID0 = 0x0011c464 ∧
    (Load_BS2 scr crc cfgRegion (some (data, size)) st0).st.cpu.spr SPR_IBAT0U = 0x80001fff ∧
    (Load_BS2 scr crc cfgRegion (some (data, size)) st0).st.cpu.spr SPR_IBAT0L = 0x00000002 ∧
    (Load_BS2 scr crc cfgRegion (some (data, size)) st0).st.cpu.spr SPR_IBAT3U = 0xfff0001f ∧
    (Load_BS2 scr crc cfgRegion (some (data, size)) st0).st.cpu.spr SPR_IBAT3L = 0xfff00001 ∧
    (Load_BS2 scr crc cfgRegion (some (data, size)) st0).st.cpu.spr SPR_DBAT0U = 0x80001fff ∧
    (Load_BS2 scr crc cfgRegion (some (data, size)) st0).st.cpu.spr SPR_DBAT0L = 0x00000002 ∧
    (Load_BS2 scr crc cfgRegion (some (data, size)) st0).st.cpu.spr SPR_DBAT1U = 0xc0001fff ∧
    (Load_BS2 scr crc cfgRegion (some (data, size)) st0).st.cpu.spr SPR_DBAT1L = 0x0000002a ∧
    (Load_BS2 scr crc cfgRegion (some (data, size)) st0).st.cpu.spr SPR_DBAT3U = 0xfff0001f ∧
    (Load_BS2 scr crc cfgRegion (some (data, size)) st0).st.cpu.spr SPR_DBAT3L = 0xfff00001 ∧
    (Load_BS2 scr crc cfgRegion (some (data, size)) st0).st.cpu.pc = 0x81200150 ∧
    (∀ crc2 cfgRegion2,
      (Load_BS2 scr crc2 cfgRegion2 (some (data, size)) st0).st =
        (Load_BS2 scr crc cfgRegion (some (data, size)) st0).st) := by
  refine ⟨rfl, rfl, rfl, rfl, ?_, rfl, rfl, rfl, rfl, rfl, rfl, rfl, rfl, rfl, rfl,
    rfl, rfl, rfl, fun crc2 cfgRegion2 => rfl⟩
  intro i h3 h4 h5
  simp [Load_BS2, Function.update_apply, h3, h4, h5]

/-- Witness for C4 amended, instantiating the untouched-register clause at
register 7 and the independence clause at two distinct oracles. -/
theorem c4_witness :
    (Load_BS2 (fun _ _ => 0) (fun _ _ => 0) Region.NTSC_U (some (fun _ => 0, 0))
        ⟨fun _ => 0, ⟨fun _ => 9, fun _ => 0, 0, 0⟩⟩).st.cpu.gpr 7 = 9 ∧
      (Load_BS2 (fun _ _ => 0) (fun _ _ => 1) Region.PAL (some (fun _ => 0, 0))
          ⟨fun _ => 0, ⟨fun _ => 9, fun _ => 0, 0, 0⟩⟩).st =
        (Load_BS2 (fun _ _ => 0) (fun _ _ => 0) Region.NTSC_U (some (fun _ => 0, 0))
          ⟨fun _ => 0, ⟨fun _ => 9, fun _ => 0, 0, 0⟩⟩).st :=
  ⟨(c4_cpu_boot_state_literals (fun _ _ => 0) (fun _ _ => 0) Region.NTSC_U
      (fun _ => 0) 0 ⟨fun _ => 0, ⟨fun _ => 9, fun _ => 0, 0, 0⟩⟩).2.2.2.2.1 7
      (by decide) (by decide) (by decide),
   (c4_cpu_boot_state_literals (fun _ _ => 0) (fun _ _ => 0) Region.NTSC_U
      (fun _ => 0) 0 ⟨fun _ => 0, ⟨fun _ => 9, fun _ => 0, 0, 0⟩⟩).2.2.2.2.2.2.2.2.2.2.2.2.2.2.2.2.2.2
      (fun _ _ => 1) Region.PAL⟩

/-- C10: the descramble transform covers exactly [0x100, 0x100 + 0x1AFE00):
inside that range the buffer holds the transform's output, outside it the raw
file bytes; the second installed sub-range is read from
[0x820, 0x820 + 0x1AFE00), and its final 0x720 bytes (copy offsets j with
0x1AF6E0 = 0x1AFE00 - 0x720 ≤ j) land beyond the descrambled range, so the
bytes installed at guest 0x01300000 + j there are raw file bytes. -/
theorem load_BS2_mem_eq (scr : (Nat → Nat) → Nat → Nat)
    (crc : (Nat → Nat) → Nat → Nat) (cfgRegion : Region) (data : Nat → Nat)
    (size : Nat) (st0 : MachineState) :
    (Load_BS2 scr crc cfgRegion (some (data, size)) st0).st.mem =
      copyToEmu (copyToEmu st0.mem 0x01200000 (descrambledBuf scr data) 0x100 0x700)
        0x01300000 (descrambledBuf scr data) 0x820 DESCRAMBLE_LEN := rfl

theorem c10_descramble_range_and_raw_tail
    (scr : (Nat → Nat) → Nat → Nat) (crc : (Nat → Nat) → Nat → Nat)
    (cfgRegion : Region) (data : Nat → Nat) (size : Nat) (st0 : MachineState) :
    DESCRAMBLE_LEN - 0x720 = 0x1AF6E0 ∧
    (∀ i, i < DESCRAMBLE_START ∨ DESCRAMBLE_START + DESCRAMBLE_LEN ≤ i →
      descrambledBuf scr data i = data i) ∧
    (∀ i, DESCRAMBLE_START ≤ i → i < DESCRAMBLE_START + DESCRAMBLE_LEN →
      descrambledBuf scr data i = scr data i) ∧
    (∀ j, j < DESCRAMBLE_LEN →
      (Load_BS2 scr crc cfgRegion (some (data, size)) st0).st.mem (0x01300000 + j) =
        descrambledBuf scr data (0x820 + j)) ∧
    (∀ j, 0x1AF6E0 ≤ j → j < DESCRAMBLE_LEN →
      (Load_BS2 scr crc cfgRegion (some (data, size)) st0).st.mem (0x01300000 + j) =
        data (0x820 + j)) := by
  simp only [DESCRAMBLE_START, DESCRAMBLE_LEN, descrambledBuf,
    load_BS2_mem_eq scr crc cfgRegion data size st0, copyToEmu]
  refine ⟨by norm_num, ?_, ?_, ?_, ?_⟩
  · intro i hi
    rw [if_neg (by omega)]
  · intro i h1 h2
    rw [if_pos (by omega)]
  · intro j hj
    rw [if_pos (by omega)]
    have harg : 0x820 + (0x01300000 + j - 0x01300000) = 0x820 + j := by omega
    rw [harg]
  · intro j h1 h2
    rw [if_pos (by omega)]
    have harg : 0x820 + (0x01300000 + j - 0x01300000) = 0x820 + j := by omega
    rw [harg, if_neg (by omega)]

/-- Witness for C10 at concrete positions: an out-of-range byte, an in-range
byte, a copied byte and a raw-tail byte. -/
theorem c10_witness :
    descrambledBuf (fun _ _ => 1) (fun _ => 0) 0x50 = 0 ∧
      descrambledBuf (fun _ _ => 1) (fun _ => 0) 0x500 = 1 ∧
      (Load_BS2 (fun _ _ => 1) (fun _ _ => 0) Region.PAL (some (fun _ => 0, 0))
          ⟨fun _ => 2, ⟨fun _ => 0, fun _ => 0, 0, 0⟩⟩).st.mem
        (0x01300000 + 0x1AF6E0) = 0 :=
  ⟨(c10_descramble_range_and_raw_tail (fun _ _ => 1) (fun _ _ => 0) Region.PAL
      (fun _ => 0) 0 ⟨fun _ => 2, ⟨fun _ => 0, fun _ => 0, 0, 0⟩⟩).2.1 0x50
      (Or.inl (by decide)),
   (c10_descramble_range_and_raw_tail (fun _ _ => 1) (fun _ _ => 0) Region.PAL
      (fun _ => 0) 0 ⟨fun _ => 2, ⟨fun _ => 0, fun _ => 0, 0, 0⟩⟩).2.2.1 0x500
      (by decide) (by decide),
   (c10_descramble_range_and_raw_tail (fun _ _ => 1) (fun _ _ => 0) Region.PAL
      (fun _ => 0) 0 ⟨fun _ => 2, ⟨fun _ => 0, fun _ => 0, 0, 0⟩⟩).2.2.2.2 0x1AF6E0
      (by decide) (by decide)⟩

/-! Helper lemmas about the std::string model, used for the FindMapFile
claim. -/

theorem findLastOf_append (xs ys : List Char) (c : Char) :
    findLastOf (xs ++ ys) c =
      match findLastOf ys c with
      | some j => some (xs.length + j)
      | none => findLastOf xs c := by
  induction xs with
  | nil =>
    cases h : findLastOf ys c <;> simp [findLastOf, h]
  | cons x xs ih =>
    cases h : findLastOf ys c with
    | some j =>
      simp only [List.cons_append, findLastOf, List.append_eq, ih, h, List.length_cons]
      exact congrArg some (by omega)
    | none =>
      simp only [List.cons_append, findLastOf, List.append_eq, ih, h]

theorem findLastOf_eq_none (l : List Char) (c : Char) (h : c ∉ l) :
    findLastOf l c = none := by
  induction l with
  | nil => rfl
  | cons x xs ih =>
    simp only [List.mem_cons, not_or] at h
    simp only [findLastOf, ih h.2]
    rw [if_neg fun hxc => h.1 hxc.symm]

theorem findLastOf_lt_length (l : List Char) (c : Char) (i : Nat)
    (h : findLastOf l c = some i) : i < l.length := by
  induction l generalizing i with
  | nil => exact absurd h (by simp [findLastOf])
  | cons x xs ih =>
    simp only [findLastOf] at h
    cases h2 : findLastOf xs c with
    | some j =>
      rw [h2] at h
      have := ih j h2
      simp only [Option.some.injEq] at h
      simp only [List.length_cons]
      omega
    | none =>
      rw [h2] at h
      by_cases hx : x = c
      · rw [if_pos hx] at h
        simp only [Option.some.injEq] at h
        simp [← h]
      · rw [if_neg hx] at h
        exact absurd h (by simp)

/-- For a path of the form pre ++ separator ++ name with no separator inside
name, name_begin_index lands right after the separator, under either
path-separator convention. -/
theorem nameBeginIndex_append (pre name : List Char) (c : Char)
    (hc : c = '/' ∨ c = '\\') (h1 : '/' ∉ name) (h2 : '\\' ∉ name) :
    nameBeginIndex (pre ++ c :: name) = pre.length + 1 := by
  have hslash : findLastOf (pre ++ c :: name) '/' =
      match findLastOf (c :: name) '/' with
      | some j => some (pre.length + j)
      | none => findLastOf pre '/' := findLastOf_append pre (c :: name) '/'
  have hback : findLastOf (pre ++ c :: name) '\\' =
      match findLastOf (c :: name) '\\' with
      | some j => some (pre.length + j)
      | none => findLastOf pre '\\' := findLastOf_append pre (c :: name) '\\'
  rcases hc with hc | hc
  · subst hc
    have e1 : findLastOf ('/' :: name) '/' = some 0 := by
      simp [findLastOf, findLastOf_eq_none name '/' h1]
    have e2 : findLastOf ('/' :: name) '\\' = none := by
      simp [findLastOf, findLastOf_eq_none name '\\' h2]
    rw [e1] at hslash
    rw [e2] at hback
    unfold nameBeginIndex
    rw [hslash, hback]
    simp only [afterIndex, Nat.add_zero]
    cases hb : findLastOf pre '\\' with
    | none => simp [afterIndex]
    | some i =>
      have := findLastOf_lt_length pre '\\' i hb
      simp only [afterIndex]
      rw [if_neg (by omega)]
  · subst hc
    have e1 : findLastOf ('\\' :: name) '\\' = some 0 := by
      simp [findLastOf, findLastOf_eq_none name '\\' h2]
    have e2 : findLastOf ('\\' :: name) '/' = none := by
      simp [findLastOf, findLastOf_eq_none name '/' h1]
    rw [e2] at hslash
    rw [e1] at hback
    unfold nameBeginIndex
    rw [hslash, hback]
    simp only [afterIndex, Nat.add_zero]
    cases hb : findLastOf pre '/' with
    | none => simp [afterIndex]
    | some i =>
      have := findLastOf_lt_length pre '/' i hb
      simp only [afterIndex]
      rw [if_pos (by omega)]

theorem hexDigit_mem (m : Nat) : hexDigit m ∈ hexDigits := by
  unfold hexDigit
  by_cases h : m < hexDigits.length
  · rw [List.getD_eq_getElem _ _ h]
    exact List.getElem_mem h
  · rw [List.getD_eq_default _ _ (Nat.le_of_not_lt h)]
    decide

/-- C7: FindMapFile's title-id derivation.  For a DOL/ELF path the directory
prefix (under either separator convention) and the trailing four characters
are stripped, so "C:/games/Foo.dol" yields "Foo"; for an installed title the
64-bit title id is formatted as two 8-digit uppercase hexadecimal groups
joined by an underscore, so 0x0001000248414241 yields "00010002_48414241",
and in general the formatted id has 17 characters drawn from the uppercase
hexadecimal digit table plus the underscore. -/
theorem c7_find_map_file_title_id :
    dolTitleId ("C:/games/Foo.dol".data) = "Foo".data ∧
    (∀ (pre name : List Char) (c : Char), (c = '/' ∨ c = '\\') →
      '/' ∉ name → '\\' ∉ name → 4 ≤ name.length → name.length < SIZETLIMIT →
      dolTitleId (pre ++ c :: name) = name.take (name.length - 4)) ∧
    nandTitleId 0x0001000248414241 = "00010002_48414241".data ∧
    (∀ tid, (nandTitleId tid).length = 17 ∧
      ∀ ch ∈ nandTitleId tid, ch ∈ '_' :: hexDigits) := by
  refine ⟨by decide, ?_, by decide, ?_⟩
  · intro pre name c hc h1 h2 hlen hsz
    simp only [dolTitleId]
    rw [nameBeginIndex_append pre name c hc h1 h2]
    have hcount :
        ((pre ++ c :: name).length + 2 * SIZETLIMIT - 4 - (pre.length + 1)) %
          SIZETLIMIT = name.length - 4 := by
      simp only [List.length_append, List.length_cons]
      unfold SIZETLIMIT at hsz ⊢
      omega
    rw [hcount]
    have hsplit : pre ++ c :: name = (pre ++ [c]) ++ name := by simp
    rw [hsplit]
    have hl : pre.length + 1 = (pre ++ [c]).length := by simp
    rw [hl, List.drop_left]
  · intro tid
    refine ⟨by simp [nandTitleId, hex8], ?_⟩
    intro ch hch
    simp only [nandTitleId, hex8, List.mem_append, List.mem_cons, List.mem_map,
      List.mem_range] at hch
    rcases hch with ⟨k, _, hk⟩ | hch | ⟨k, _, hk⟩
    · exact hk ▸ List.mem_cons_of_mem _ (hexDigit_mem _)
    · exact hch ▸ List.mem_cons_self _ _
    · exact hk ▸ List.mem_cons_of_mem _ (hexDigit_mem _)

/-- Witness for C7: the general stripping rule applied to the concrete path
"C:/games" ++ '/' ++ "Foo.dol", and the general shape clause at a concrete
title id. -/
theorem c7_witness :
    dolTitleId (("C:/games".data) ++ '/' :: ("Foo.dol".data)) =
      ("Foo.dol".data).take 3 ∧
      (nandTitleId 0xDEADBEEF00C0FFEE).length = 17 :=
  ⟨c7_find_map_file_title_id.2.1 ("C:/games".data) ("Foo.dol".data) '/'
      (Or.inl rfl) (by decide) (by decide) (by decide) (by decide),
   (c7_find_map_file_title_id.2.2.2 0xDEADBEEF00C0FFEE).1⟩

/-- C1 counterexample: a concrete InstalledTitle (WII_NAND) configuration
whose installed-title container fails to resolve and boot (wadOk = false);
BootUp nevertheless returns true, refuting the claim that it returns
false. -/
theorem c1_counterexample :
    (BootUp ⟨BootType.WII_NAND, Region.NTSC_U, true, false, false, false, true, true⟩
      ⟨false, false, false, false, false, false, 0, false, false, false, false⟩).1 =
      true := rfl

/-- C1 amended: for the InstalledTitle boot type BootUp never consults the
result of the installed-title boot; it proceeds with patch loading, symbol
map resolution and the optional companion mount, and returns true regardless
of whether the container resolved or booted. -/
theorem c1_installed_title_result_ignored (cfg : BootConfig) (env : BootEnv)
    (h : cfg.bootType = BootType.WII_NAND) :
    (BootUp cfg env).1 = true := by
  simp [BootUp, h]

/-- Witness for the amended C1 at a concrete configuration. -/
theorem c1_witness :
    (BootUp ⟨BootType.WII_NAND, Region.PAL, false, false, false, false, false, false⟩
      ⟨true, true, true, true, true, true, 0, true, false, true, true⟩).1 = true :=
  c1_installed_title_result_ignored _ _ rfl

/-- C8: firmware-load failure is fatal exactly for the dedicated Firmware
(BS2) boot type, where BootUp returns false, and recoverable for the
DiscImage (ISO) boot type, where the same failed firmware load falls back to
the high-level stub (EmulatedBS2 runs) and the attempt still succeeds. -/
theorem c8_firmware_failure_fatality (cfg : BootConfig) (env : BootEnv) :
    (cfg.bootType = BootType.BS2 → env.bs2Ok = false →
      (BootUp cfg env).1 = false) ∧
    (cfg.bootType = BootType.ISO → env.discInside = true →
      cfg.bHLE_BS2 = false → env.bs2Ok = false →
      (BootUp cfg env).1 = true ∧
        BootEffect.runEmulatedBS2 env.volumeIsWii ∈ (BootUp cfg env).2) := by
  constructor
  · intro h hb
    simp [BootUp, h, hb]
  · intro h hd hh hb
    constructor
    · simp [BootUp, h, hd]
    · simp [BootUp, h, hd, hh, hb]

/-- Witness for C8 at concrete configurations: a failed firmware-only boot
and a failed firmware load inside a disc boot. -/
theorem c8_witness :
    (BootUp ⟨BootType.BS2, Region.NTSC_U, false, false, false, false, true, true⟩
      ⟨false, false, false, false, false, false, 0, false, false, false, false⟩).1 =
      false ∧
    ((BootUp ⟨BootType.ISO, Region.NTSC_U, false, false, false, false, true, true⟩
        ⟨false, true, true, false, false, false, 0, false, false, false, false⟩).1 =
        true ∧
      BootEffect.runEmulatedBS2 true ∈
        (BootUp ⟨BootType.ISO, Region.NTSC_U, false, false, false, false, true, true⟩
          ⟨false, true, true, false, false, false, 0, false, false, false,
            false⟩).2) :=
  ⟨(c8_firmware_failure_fatality _ _).1 rfl rfl,
   (c8_firmware_failure_fatality _ _).2 rfl rfl rfl rfl⟩

/-- C9 counterexample: a concrete DiscImage boot that reaches high-level
bring-up as the fallback after a failed firmware load (bHLE_BS2 = false,
bs2Ok = false), with debugging disabled and a signature database present;
the fallback stub runs, yet no function-signature scan and no
signature-database application occur, refuting the claim that every
high-level bring-up (including the fallback) scans and applies. -/
theorem c9_counterexample :
    (BootUp ⟨BootType.ISO, Region.NTSC_U, false, false, false, false, true, true⟩
      ⟨false, true, false, false, false, false, 0, false, false, true, false⟩).1 =
      true ∧
    BootEffect.runEmulatedBS2 false ∈
      (BootUp ⟨BootType.ISO, Region.NTSC_U, false, false, false, false, true, true⟩
        ⟨false, true, false, false, false, false, 0, false, false, true, false⟩).2 ∧
    BootEffect.findFunctions 0x80004000 0x811fffff ∉
      (BootUp ⟨BootType.ISO, Region.NTSC_U, false, false, false, false, true, true⟩
        ⟨false, true, false, false, false, false, 0, false, false, true, false⟩).2 ∧
    BootEffect.applySignatureDB ∉
      (BootUp ⟨BootType.ISO, Region.NTSC_U, false, false, false, false, true, true⟩
        ⟨false, true, false, false, false, false, 0, false, false, true, false⟩).2 := by
  decide

/-- C9 amended: in a DiscImage boot with a disc inside, the fixed-range
function-signature scan happens exactly when high-level firmware was
requested directly (the bHLE_BS2 flag) and debugging is disabled, and the
signature database is applied exactly when additionally its load succeeded;
the fallback path after a failed firmware load does not scan. -/
theorem c9_signature_scan_requires_hle_flag (cfg : BootConfig) (env : BootEnv)
    (h : cfg.bootType = BootType.ISO) (hd : env.discInside = true) :
    ((BootEffect.findFunctions 0x80004000 0x811fffff ∈ (BootUp cfg env).2) ↔
      (cfg.bHLE_BS2 = true ∧ cfg.bEnableDebugging = false)) ∧
    ((BootEffect.applySignatureDB ∈ (BootUp cfg env).2) ↔
      (cfg.bHLE_BS2 = true ∧ cfg.bEnableDebugging = false ∧
        env.sigDbLoaded = true)) := by
  cases hh : cfg.bHLE_BS2 <;> cases hdbg : cfg.bEnableDebugging <;>
    cases hs : env.sigDbLoaded <;> cases hb : env.bs2Ok <;>
    cases hm : env.mapLoadOk <;> cases hw : env.volumeIsWii != cfg.bWii <;>
    simp [BootUp, h, hd, hh, hdbg, hs, hb, hm, hw]

/-- Witness for the amended C9: at a concrete configuration with the
high-level-firmware flag set and debugging disabled, the scan effect is in
the trace. -/
theorem c9_witness :
    BootEffect.findFunctions 0x80004000 0x811fffff ∈
      (BootUp ⟨BootType.ISO, Region.PAL, false, false, true, false, true, true⟩
        ⟨true, true, false, false, false, false, 0, false, false, true,
          false⟩).2 :=
  (c9_signature_scan_requires_hle_flag _ _ rfl rfl).1.mpr ⟨rfl, rfl⟩

end Ishiiruka
